import Mathlib

/-!
Verification development for the agent-chess session coordination engine.

The definitions below are a shallow embedding of the TypeScript service
module (game/session operations) and its storage/lock helpers.  ISO-8601
timestamp strings are modelled as milliseconds since the epoch (`Nat`):
every timestamp the service writes comes from `new Date().toISOString()`
and the storage layer normalizes unparseable timestamps away on read, so
the `parseIsoMs(...) === null` guards of the source can never fire on a
stored record and are dropped.  Filesystem persistence is modelled by
explicit state passing: each operation returns the game record as left in
the store (operations that raise a `CliError` after saving return the
saved record together with the error message).  The chess.js legality
oracle is external to the engine and is modelled as a function parameter.
Two `CliError` messages that contain quote characters in the source (the
possessive in the wrong-turn message and the quoted move text in the
illegal-move message) are rendered here without those characters; no
claim depends on the exact wording of a reason string.
-/

namespace AgentChess

/-- Board side, `Side = "white" | "black"` in `types.ts`. -/
inductive Side where
  | white
  | black
deriving DecidableEq, Repr

/-- Side to move, `Turn = "w" | "b"` in `types.ts`. -/
inductive Turn where
  | w
  | b
deriving DecidableEq, Repr

/-- `GameStatus` union from `types.ts`. -/
inductive GameStatus where
  | active
  | forfeitIllegalMoves
  | checkmate
  | stalemate
  | drawInsufficientMaterial
  | drawThreefoldRepetition
  | drawFiftyMoveRule
  | drawInactivityTimeout
  | draw
deriving DecidableEq, Repr

/-- The string each `GameStatus` value serializes to. -/
def statusName : GameStatus → String
  | .active => "active"
  | .forfeitIllegalMoves => "forfeit-illegal-moves"
  | .checkmate => "checkmate"
  | .stalemate => "stalemate"
  | .drawInsufficientMaterial => "draw-insufficient-material"
  | .drawThreefoldRepetition => "draw-threefold-repetition"
  | .drawFiftyMoveRule => "draw-fifty-move-rule"
  | .drawInactivityTimeout => "draw-inactivity-timeout"
  | .draw => "draw"

/-- The string each `Side` value serializes to. -/
def sideName : Side → String
  | .white => "white"
  | .black => "black"

/-- One applied move (`MoveRecord` in `types.ts`).  The source field `by`
is a Lean keyword and is rendered `by_`; likewise `from` is `from_` and
`to` is `to_`. -/
structure MoveRecord where
  ply : Nat
  side : Side
  by_ : String
  san : String
  lan : String
  from_ : String
  to_ : String
  promotion : Option String
  thinking : Option String
  fenBefore : String
  fenAfter : String
  turnStartedAt : Nat
  turnDurationMs : Nat
  createdAt : Nat
deriving DecidableEq, Repr

/-- One rejected submission (`IllegalMoveRecord` in `types.ts`). -/
structure IllegalMoveRecord where
  attemptedBy : String
  moveInput : String
  reason : String
  expectedTurn : Option Side
  expectedAgent : Option String
  statusAtAttempt : GameStatus
  createdAt : Nat
deriving DecidableEq, Repr

/-- A pending draw offer (`DrawRequestRecord` in `types.ts`). -/
structure DrawRequestRecord where
  requestedBySide : Side
  requestedByTicketId : String
  requestedAt : Nat
  promptShownToTicketId : Option String
  promptShownAt : Option Nat
deriving DecidableEq, Repr

/-- The per-side maps `players` and `playerModels` of `GameRecord`
(`white/black -> string | null`). -/
structure SeatMap where
  white : Option String
  black : Option String
deriving DecidableEq, Repr

/-- Indexing a seat map by side, `map[side]` in the source. -/
def SeatMap.get : SeatMap → Side → Option String
  | m, .white => m.white
  | m, .black => m.black

/-- Updating a seat map at one side, `map[side] = v` in the source. -/
def SeatMap.set : SeatMap → Side → Option String → SeatMap
  | m, .white, v => { m with white := v }
  | m, .black, v => { m with black := v }

/-- The authoritative game state (`GameRecord` in `types.ts`). -/
structure GameRecord where
  id : String
  createdAt : Nat
  updatedAt : Nat
  players : SeatMap
  playerModels : SeatMap
  turn : Turn
  status : GameStatus
  winner : Option Side
  resultText : Option String
  turnStartedAt : Nat
  history : List MoveRecord
  illegalMoves : List IllegalMoveRecord
  positions : List String
  drawRequest : Option DrawRequestRecord
deriving DecidableEq, Repr

/-- A join ticket (`TicketRecord` in `types.ts`). -/
structure TicketRecord where
  ticketId : String
  gameId : String
  agentId : String
  modelId : String
  side : Side
  createdAt : Nat
  updatedAt : Nat
deriving DecidableEq, Repr

/-- `INACTIVITY_TIMEOUT_MS = 5 * 60 * 1000`. -/
def INACTIVITY_TIMEOUT_MS : Nat := 5 * 60 * 1000

/-- `MAX_CONSECUTIVE_ILLEGAL_MOVES = 5`. -/
def MAX_CONSECUTIVE_ILLEGAL_MOVES : Nat := 5

/-- `JOIN_LOCK_TIMEOUT_MS = 5000`. -/
def JOIN_LOCK_TIMEOUT_MS : Nat := 5000

/-- `JOIN_LOCK_POLL_MS = 50`. -/
def JOIN_LOCK_POLL_MS : Nat := 50

/-- `CANONICAL_START_FEN = new Chess().fen()`: the standard initial
position reported by chess.js. -/
def CANONICAL_START_FEN : String :=
  "rnbqkbnr/pppppppp/8/8/8/8/PPPPPPPP/RNBQKBNR w KQkq - 0 1"

/-- `sideFromTurn` from the service module. -/
def sideFromTurn : Turn → Side
  | .w => .white
  | .b => .black

/-- `turnFromSide` from the service module. -/
def turnFromSide : Side → Turn
  | .white => .w
  | .black => .b

/-- `oppositeSide` from the service module. -/
def oppositeSide : Side → Side
  | .white => .black
  | .black => .white

/-- JS `String.prototype.trim`, written over the character list so the
kernel can evaluate it (core `String.trim` is irreducible there). -/
def strTrim (s : String) : String :=
  String.mk (((s.data.dropWhile Char.isWhitespace).reverse.dropWhile
    Char.isWhitespace).reverse)

/-- JS `String.prototype.toUpperCase` over the character list. -/
def strToUpper (s : String) : String :=
  String.mk (s.data.map Char.toUpper)

/-- JS `String.prototype.slice(0, n)` over the character list. -/
def strTake (s : String) (n : Nat) : String :=
  String.mk (s.data.take n)

/-- `normalizeTicketId`: trim then upper-case. -/
def normalizeTicketId (ticketId : String) : String :=
  strToUpper (strTrim ticketId)

/-- `sideForTicket`: which seat (if any) the ticket occupies. -/
def sideForTicket (game : GameRecord) (ticketId : String) : Option Side :=
  if game.players.white = some ticketId then some Side.white
  else if game.players.black = some ticketId then some Side.black
  else none

/-- `elapsedMs`: the source clamps `end - start` at 0, which truncated
`Nat` subtraction does by construction. -/
def elapsedMs (startMs endMs : Nat) : Nat :=
  endMs - startMs

/-- `normalizeAnnotation` from the service module (renamed for Lean): trim,
drop when empty, cap at 1200 characters. -/
def normalizeThinking : Option String → Option String
  | none => none
  | some v =>
    let trimmed := strTrim v
    if trimmed.isEmpty then none else some (strTake trimmed 1200)

/-- `game.history.at(-1)?.createdAt ?? game.createdAt`: the timestamp the
inactivity check measures from. -/
def lastActivityAt (game : GameRecord) : Nat :=
  ((game.history.getLast?).map MoveRecord.createdAt).getD game.createdAt

/-- Lean model of `applyInactivityTimeout`.  Returns the (possibly
updated) game together with whether `saveGame` was called. -/
def applyInactivityTimeout (game : GameRecord) (now : Nat) : GameRecord × Bool :=
  if game.status ≠ GameStatus.active then (game, false)
  else if now - lastActivityAt game < INACTIVITY_TIMEOUT_MS then (game, false)
  else
    ({ game with
        status := GameStatus.drawInactivityTimeout
        winner := none
        resultText := some "Draw by inactivity timeout (no moves for 5 minutes)."
        turnStartedAt := now
        drawRequest := none
        updatedAt := now }, true)

/-- Lean model of `createGame`.  Id allocation (`allocateGameId`, a scan
of the store) is modelled by passing the allocated id; the optional
pre-seeded agent names of `CreateGameOptions` are `Option String` (the
degenerate JS empty string is identified with absence). -/
def createGame (id : String) (white black : Option String) (now : Nat) :
    Except String GameRecord :=
  if (white.map (fun w => (strTrim w).isEmpty)).getD false then
    Except.error "Agent id cannot be empty."
  else if (black.map (fun b => (strTrim b).isEmpty)).getD false then
    Except.error "Agent id cannot be empty."
  else
    Except.ok {
      id := id
      createdAt := now
      updatedAt := now
      players := { white := white.map strTrim, black := black.map strTrim }
      playerModels := { white := white.map strTrim, black := black.map strTrim }
      turn := Turn.w
      status := GameStatus.active
      winner := none
      resultText := none
      turnStartedAt := now
      history := []
      illegalMoves := []
      positions := [CANONICAL_START_FEN]
      drawRequest := none }

/-- Result of `joinGame`: the assigned seat and minted ticket, or the
raised `CliError`; both carry the game record as left in the store. -/
inductive JoinOutcome where
  | ok (game : GameRecord) (side : Side) (ticket : String)
  | err (game : GameRecord) (reason : String)
deriving DecidableEq, Repr

/-- The game state left in the store by a `joinGame` call. -/
def JoinOutcome.game : JoinOutcome → GameRecord
  | .ok g _ _ => g
  | .err g _ => g

/-- Whether the `joinGame` call raised. -/
def JoinOutcome.isErr : JoinOutcome → Bool
  | .ok _ _ _ => false
  | .err _ _ => true

/-- Lean model of `joinGame` (the body run under the join lock).  The
`randomInt(2) === 0` coin of the both-seats-free case and the minted
unique ticket id (`createUniqueJoinTicket`) are passed as parameters.
The source helper `assign` throws when the requested seat is occupied and
otherwise stamps `updatedAt`; it is inlined here: `chosen` is the side the
`if`/`else if` chain of the source requests, and the occupancy re-check
below mirrors the throw inside `assign`. -/
def joinGame (game0 : GameRecord) (agentId : String) (preferredSide : Option Side)
    (coin : Bool) (ticketId : String) (now : Nat) : JoinOutcome :=
  if (strTrim agentId).isEmpty then JoinOutcome.err game0 "Agent id cannot be empty."
  else
    let cleanAgent := strTrim agentId
    let game := (applyInactivityTimeout game0 now).1
    if game.status ≠ GameStatus.active then
      JoinOutcome.err game
        ("Game " ++ game0.id ++ " is already finished (" ++ statusName game.status ++ ").")
    else
      let chosen : Option Side :=
        match preferredSide with
        | some s => some s
        | none =>
          if game.players.white = none ∧ game.players.black = none then
            some (if coin then Side.white else Side.black)
          else if game.players.white = none then some Side.white
          else if game.players.black = none then some Side.black
          else none
      match chosen with
      | none => JoinOutcome.err game "Both seats are already occupied."
      | some side =>
        match game.players.get side with
        | some occupant =>
          JoinOutcome.err game
            (sideName side ++ " is already occupied by ticket " ++ occupant ++ ".")
        | none =>
          JoinOutcome.ok
            { game with
                updatedAt := now
                players := game.players.set side (some ticketId)
                playerModels := game.playerModels.set side (some cleanAgent) }
            side ticketId

/-- The store as seen by `abandonJoinTicketIfUnpaired`: the game the
ticket points at and the ticket records on disk (keyed by their
normalized upper-case ids, which `saveTicket` guarantees). -/
structure StoreState where
  game : GameRecord
  tickets : List TicketRecord
deriving DecidableEq, Repr

/-- `loadTicket`: look the ticket up under its normalized id. -/
def loadTicket (tickets : List TicketRecord) (ticketId : String) : Option TicketRecord :=
  tickets.find? (fun t => t.ticketId == normalizeTicketId ticketId)

/-- `deleteTicket`: idempotent removal under the normalized id. -/
def deleteTicket (tickets : List TicketRecord) (ticketId : String) : List TicketRecord :=
  tickets.filter (fun t => ¬ t.ticketId = normalizeTicketId ticketId)

/-- Result of `abandonJoinTicketIfUnpaired`: the boolean return value, or
the raised `CliError`; both carry the store contents left behind. -/
inductive AbandonOutcome where
  | res (game : GameRecord) (tickets : List TicketRecord) (removed : Bool)
  | err (game : GameRecord) (tickets : List TicketRecord) (reason : String)
deriving DecidableEq, Repr

/-- The game state left in the store by an abandon call. -/
def AbandonOutcome.game : AbandonOutcome → GameRecord
  | .res g _ _ => g
  | .err g _ _ => g

/-- The ticket records left in the store by an abandon call. -/
def AbandonOutcome.tickets : AbandonOutcome → List TicketRecord
  | .res _ t _ => t
  | .err _ t _ => t

/-- Lean model of `abandonJoinTicketIfUnpaired` (the body run under the
join lock of `ticket.gameId`; the store state holds that game). -/
def abandonJoinTicketIfUnpaired (st : StoreState) (ticketId : String) (now : Nat) :
    AbandonOutcome :=
  if (strTrim ticketId).isEmpty then
    AbandonOutcome.err st.game st.tickets "Ticket id cannot be empty."
  else
    match loadTicket st.tickets ticketId with
    | none => AbandonOutcome.res st.game st.tickets false
    | some ticket =>
      let game := (applyInactivityTimeout st.game now).1
      let seatTicket := game.players.get ticket.side
      if seatTicket ≠ some ticket.ticketId then
        AbandonOutcome.res game (deleteTicket st.tickets ticket.ticketId) false
      else
        let opponentSide := oppositeSide ticket.side
        if (game.players.get opponentSide).isSome then
          AbandonOutcome.res game st.tickets false
        else
          AbandonOutcome.res
            { game with
                players := game.players.set ticket.side none
                playerModels := game.playerModels.set ticket.side none
                updatedAt := now }
            (deleteTicket st.tickets ticket.ticketId) true

/-- Result of `requestDraw`/`acceptDraw`: the updated game or the raised
`CliError`, in both cases with the game record as left in the store. -/
inductive DrawOutcome where
  | ok (game : GameRecord)
  | err (game : GameRecord) (reason : String)
deriving DecidableEq, Repr

/-- The game state left in the store by a draw call. -/
def DrawOutcome.game : DrawOutcome → GameRecord
  | .ok g => g
  | .err g _ => g

/-- Whether the draw call raised. -/
def DrawOutcome.isErr : DrawOutcome → Bool
  | .ok _ => false
  | .err _ _ => true

/-- Lean model of `requestDraw`. -/
def requestDraw (game0 : GameRecord) (ticketId : String) (now : Nat) : DrawOutcome :=
  if (strTrim ticketId).isEmpty then DrawOutcome.err game0 "Ticket id cannot be empty."
  else
    let cleanTicket := normalizeTicketId ticketId
    let game := (applyInactivityTimeout game0 now).1
    if game.status ≠ GameStatus.active then
      DrawOutcome.err game
        ("Game " ++ game0.id ++ " is already finished (" ++ statusName game.status ++ ").")
    else
      match sideForTicket game cleanTicket with
      | none =>
        DrawOutcome.err game
          ("Ticket " ++ cleanTicket ++ " is not seated in game " ++ game0.id ++ ".")
      | some requesterSide =>
        if game.players.get (oppositeSide requesterSide) = none then
          DrawOutcome.err game "Cannot request a draw until both agents have joined."
        else
          match game.drawRequest with
          | some existingRequest =>
            if existingRequest.requestedByTicketId = cleanTicket then
              DrawOutcome.err game
                "You already requested a draw. Wait for the opponent response."
            else
              DrawOutcome.err game
                "Opponent already requested a draw. Use accept-draw or play to continue."
          | none =>
            DrawOutcome.ok
              { game with
                  drawRequest := some {
                    requestedBySide := requesterSide
                    requestedByTicketId := cleanTicket
                    requestedAt := now
                    promptShownToTicketId := none
                    promptShownAt := none }
                  updatedAt := now }

/-- Lean model of `acceptDraw`. -/
def acceptDraw (game0 : GameRecord) (ticketId : String) (now : Nat) : DrawOutcome :=
  if (strTrim ticketId).isEmpty then DrawOutcome.err game0 "Ticket id cannot be empty."
  else
    let cleanTicket := normalizeTicketId ticketId
    let game := (applyInactivityTimeout game0 now).1
    if game.status ≠ GameStatus.active then
      DrawOutcome.err game
        ("Game " ++ game0.id ++ " is already finished (" ++ statusName game.status ++ ").")
    else
      match sideForTicket game cleanTicket with
      | none =>
        DrawOutcome.err game
          ("Ticket " ++ cleanTicket ++ " is not seated in game " ++ game0.id ++ ".")
      | some _accepterSide =>
        match game.drawRequest with
        | none => DrawOutcome.err game "No pending draw request."
        | some pending =>
          if pending.requestedByTicketId = cleanTicket then
            DrawOutcome.err game
              "You requested this draw. Wait for your opponent to accept."
          else
            DrawOutcome.ok
              { game with
                  status := GameStatus.draw
                  winner := none
                  resultText := some "Draw by agreement."
                  turnStartedAt := now
                  drawRequest := none
                  updatedAt := now }

/-- The `state` field of `DrawRequestGateResult` ("none" | "prompt"). -/
inductive GateState where
  | gateNone
  | gatePrompt
deriving DecidableEq, Repr

/-- `DrawRequestGateResult` from the service module. -/
structure DrawRequestGateResult where
  state : GateState
  game : GameRecord
  request : Option DrawRequestRecord
deriving DecidableEq, Repr

/-- Result of `gatePlayForPendingDraw`: the gate result or the raised
`CliError` (only the empty-ticket validation throws). -/
inductive GateOutcome where
  | ok (result : DrawRequestGateResult)
  | err (game : GameRecord) (reason : String)
deriving DecidableEq, Repr

/-- The game state left in the store by a gate call. -/
def GateOutcome.game : GateOutcome → GameRecord
  | .ok r => r.game
  | .err g _ => g

/-- Lean model of `gatePlayForPendingDraw`.  The single source guard
`game.status !== "active" || !game.drawRequest` is split into the `none`
match arm and the status test below. -/
def gatePlayForPendingDraw (game0 : GameRecord) (ticketId : String) (now : Nat) :
    GateOutcome :=
  if (strTrim ticketId).isEmpty then GateOutcome.err game0 "Ticket id cannot be empty."
  else
    let cleanTicket := normalizeTicketId ticketId
    let game := (applyInactivityTimeout game0 now).1
    match game.drawRequest with
    | none => GateOutcome.ok { state := GateState.gateNone, game := game, request := none }
    | some request =>
      if game.status ≠ GameStatus.active then
        GateOutcome.ok { state := GateState.gateNone, game := game, request := none }
      else if request.requestedByTicketId = cleanTicket then
        GateOutcome.ok { state := GateState.gateNone, game := game, request := some request }
      else if request.promptShownToTicketId = some cleanTicket then
        GateOutcome.ok {
          state := GateState.gateNone
          game := { game with drawRequest := none, updatedAt := now }
          request := some request }
      else
        let newRequest := { request with
          promptShownToTicketId := some cleanTicket
          promptShownAt := some now }
        GateOutcome.ok {
          state := GateState.gatePrompt
          game := { game with drawRequest := some newRequest, updatedAt := now }
          request := some newRequest }

/-- What the external chess.js oracle exposes about a successfully applied
move: the fields of the returned `Move` object that `makeMove` reads, the
post-move position and side to move, and the terminal-condition
predicates that `evaluateResult` consults.  A rejected or unparseable
move is `none` at the `Oracle` level (the source reaches that through
`normalizeMoveInput` plus a throwing or falsy `chess.move`). -/
structure OracleMove where
  san : String
  lan : String
  from_ : String
  to_ : String
  promotion : Option String
  fenAfter : String
  turnAfter : Turn
  isCheckmate : Bool
  isStalemate : Bool
  isInsufficientMaterial : Bool
  isThreefoldRepetition : Bool
  isDrawByFiftyMoves : Bool
  isDraw : Bool
deriving DecidableEq, Repr

/-- The external legality oracle: position before (FEN) and raw move text
in, applied move out (`none` = rejected). -/
def Oracle : Type := String → String → Option OracleMove

/-- What `evaluateResult` computes from the post-move chess object. -/
structure ResultSummary where
  status : GameStatus
  winner : Option Side
  resultText : Option String
deriving DecidableEq, Repr

/-- Lean model of `evaluateResult`: the if-chain over the chess.js
terminal predicates; on checkmate the winner is the side that just moved
(the opposite of the post-move side to move). -/
def evaluateResult (m : OracleMove) : ResultSummary :=
  if m.isCheckmate then
    let winner := if m.turnAfter = Turn.w then Side.black else Side.white
    { status := GameStatus.checkmate
      winner := some winner
      resultText := some ("Checkmate. " ++ sideName winner ++ " wins.") }
  else if m.isStalemate then
    { status := GameStatus.stalemate, winner := none,
      resultText := some "Draw by stalemate." }
  else if m.isInsufficientMaterial then
    { status := GameStatus.drawInsufficientMaterial, winner := none,
      resultText := some "Draw by insufficient material." }
  else if m.isThreefoldRepetition then
    { status := GameStatus.drawThreefoldRepetition, winner := none,
      resultText := some "Draw by threefold repetition." }
  else if m.isDrawByFiftyMoves then
    { status := GameStatus.drawFiftyMoveRule, winner := none,
      resultText := some "Draw by fifty-move rule." }
  else if m.isDraw then
    { status := GameStatus.draw, winner := none, resultText := some "Draw." }
  else
    { status := GameStatus.active, winner := none, resultText := none }

/-- Count of the illegal attempts at the front of the list all made by
`t` (stopping at the first attempt by a different ticket). -/
def leadingStreak (t : String) : List IllegalMoveRecord → Nat
  | [] => 0
  | r :: rs => if r.attemptedBy = t then leadingStreak t rs + 1 else 0

/-- The backward scan of `recordIllegalMove`: the trailing run of illegal
attempts by `t`. -/
def trailingStreak (l : List IllegalMoveRecord) (t : String) : Nat :=
  leadingStreak t l.reverse

/-- Lean model of the `recordIllegalMove` closure inside `makeMove`:
append the attempt, re-count the offender streak, force the forfeit
transition when the session is active and the streak reached the
threshold, stamp `updatedAt`, save, and hand back the reason to throw. -/
def recordIllegalMove (game : GameRecord) (cleanTicket moveInput reason : String)
    (attemptedAt : Nat) : GameRecord × String :=
  let expectedTurn : Option Side :=
    if game.status = GameStatus.active then some (sideFromTurn game.turn) else none
  -- `expectedAgent = expectedTurn ? game.players[expectedTurn] : null` tests
  -- exactly the condition that made `expectedTurn` non-null, so it is
  -- rendered as an `if` on that same condition.
  let expectedAgent : Option String :=
    if game.status = GameStatus.active then game.players.get (sideFromTurn game.turn)
    else none
  let attempt : IllegalMoveRecord := {
    attemptedBy := cleanTicket
    moveInput := moveInput
    reason := reason
    expectedTurn := expectedTurn
    expectedAgent := expectedAgent
    statusAtAttempt := game.status
    createdAt := attemptedAt }
  let game := { game with illegalMoves := game.illegalMoves ++ [attempt] }
  let illegalStreak := trailingStreak game.illegalMoves cleanTicket
  let game :=
    if game.status = GameStatus.active ∧
        MAX_CONSECUTIVE_ILLEGAL_MOVES ≤ illegalStreak then
      let offenderSide : Option Side :=
        if game.players.white = some cleanTicket then some Side.white
        else if game.players.black = some cleanTicket then some Side.black
        else none
      let winner : Option Side :=
        match offenderSide with
        | some Side.white => some Side.black
        | some Side.black => some Side.white
        | none => none
      { game with
          status := GameStatus.forfeitIllegalMoves
          winner := winner
          resultText := none
          turnStartedAt := attemptedAt }
    else game
  ({ game with updatedAt := attemptedAt }, reason)

/-- Result of a `makeMove` call: the applied move or the raised
`CliError`, in both cases with the game record as left in the store
(`recordIllegalMove` saves the appended attempt before throwing). -/
inductive MoveOutcome where
  | ok (game : GameRecord) (move : MoveRecord)
  | err (game : GameRecord) (reason : String)
deriving DecidableEq, Repr

/-- The game state left in the store by a `makeMove` call. -/
def MoveOutcome.game : MoveOutcome → GameRecord
  | .ok g _ => g
  | .err g _ => g

/-- Whether the `makeMove` call raised. -/
def MoveOutcome.isErr : MoveOutcome → Bool
  | .ok _ _ => false
  | .err _ _ => true

/-- `game.positions[game.positions.length - 1] ?? CANONICAL_START_FEN`. -/
def tipFen (game : GameRecord) : String :=
  (game.positions.getLast?).getD CANONICAL_START_FEN

/-- Lean model of `makeMove`.  The defensive refills
`game.illegalMoves ??= []` and the falsy-timestamp refill of
`turnStartedAt` are identities here (lists and timestamps are always
present in the model, see the header comment). -/
def makeMove (oracle : Oracle) (game0 : GameRecord) (ticketId moveInput : String)
    (thinking : Option String) (now : Nat) : MoveOutcome :=
  if (strTrim ticketId).isEmpty then MoveOutcome.err game0 "Ticket id cannot be empty."
  else
    let cleanTicket := normalizeTicketId ticketId
    let game := (applyInactivityTimeout game0 now).1
    if game.status ≠ GameStatus.active then
      let p := recordIllegalMove game cleanTicket moveInput
        ("Game " ++ game0.id ++ " is already finished (" ++ statusName game.status ++ ").") now
      MoveOutcome.err p.1 p.2
    else
      let currentSide := sideFromTurn game.turn
      match game.players.get currentSide with
      | none =>
        let p := recordIllegalMove game cleanTicket moveInput
          ("No agent has joined as " ++ sideName currentSide ++ " yet.") now
        MoveOutcome.err p.1 p.2
      | some currentAgent =>
        if currentAgent ≠ cleanTicket then
          let p := recordIllegalMove game cleanTicket moveInput
            ("It is " ++ sideName currentSide ++ " to move, controlled by ticket "
              ++ currentAgent ++ ".") now
          MoveOutcome.err p.1 p.2
        else
          match oracle (tipFen game) moveInput with
          | none =>
            let p := recordIllegalMove game cleanTicket moveInput
              ("Illegal move " ++ moveInput ++ ".") now
            MoveOutcome.err p.1 p.2
          | some moved =>
            let moveRecord : MoveRecord := {
              ply := game.history.length + 1
              side := currentSide
              by_ := cleanTicket
              san := moved.san
              lan := moved.lan
              from_ := moved.from_
              to_ := moved.to_
              promotion := moved.promotion
              thinking := normalizeThinking thinking
              fenBefore := tipFen game
              fenAfter := moved.fenAfter
              turnStartedAt := game.turnStartedAt
              turnDurationMs := elapsedMs game.turnStartedAt now
              createdAt := now }
            let result := evaluateResult moved
            MoveOutcome.ok
              { game with
                  history := game.history ++ [moveRecord]
                  positions := game.positions ++ [moved.fenAfter]
                  turn := moved.turnAfter
                  status := result.status
                  winner := result.winner
                  resultText := result.resultText
                  turnStartedAt := now
                  drawRequest := none
                  updatedAt := now }
              moveRecord

/-- Outcome of the lock-acquisition loop of `withJoinLock`. -/
inductive LockAcquire where
  | acquired (attempt : Nat)
  | timedOut (elapsed : Nat)
deriving DecidableEq, Repr

/-- The acquisition loop of `withJoinLock`.  Attempt `k` runs
`JOIN_LOCK_POLL_MS * k` milliseconds after the start (the fixed-interval
sleep is modelled as exact); `avail k` says whether the atomic `mkdir` of
the lock entry succeeds on attempt `k`.  After a failed attempt the loop
gives up once the elapsed time reached `JOIN_LOCK_TIMEOUT_MS`, else it
sleeps and retries.  The fuel argument only serves termination; the
timeout test fires long before any sensible fuel runs out. -/
def acquireFrom (avail : Nat → Bool) (k : Nat) : Nat → LockAcquire
  | 0 => LockAcquire.timedOut (JOIN_LOCK_POLL_MS * k)
  | fuel + 1 =>
    if avail k then LockAcquire.acquired k
    else if JOIN_LOCK_TIMEOUT_MS ≤ JOIN_LOCK_POLL_MS * k then
      LockAcquire.timedOut (JOIN_LOCK_POLL_MS * k)
    else acquireFrom avail (k + 1) fuel

/-- The full acquisition attempt sequence of `withJoinLock` starting at
attempt 0; 101 units of fuel cover the whole 5-second poll budget at
50 ms per retry. -/
def acquireJoinLock (avail : Nat → Bool) : LockAcquire :=
  acquireFrom avail 0 101

/-- Lean model of `withJoinLock`: acquire the lock entry (or fail with
the timeout `CliError`), run the protected operation, and remove the lock
entry in a `finally` on both the normal and the throwing exit path.  The
returned boolean is whether the lock entry still exists afterwards. -/
def withJoinLock {α : Type} (avail : Nat → Bool) (gameId : String)
    (fn : Except String α) : Except String α × Bool :=
  match acquireJoinLock avail with
  | LockAcquire.timedOut _ =>
    (Except.error ("Timed out waiting to join game " ++ gameId ++ ". Please retry."), false)
  | LockAcquire.acquired _ =>
    match fn with
    | Except.ok v => (Except.ok v, false)
    | Except.error e => (Except.error e, false)

/-- One successful-or-saving call of any mutating operation on a game
record, quantified over all call parameters (the external oracle, the
caller inputs, the coin and minted ticket id, the clock).  Each
constructor relates the input game to the record the call leaves in the
store. -/
inductive GameStep : GameRecord → GameRecord → Prop where
  | inactivity (g : GameRecord) (now : Nat) :
      GameStep g (applyInactivityTimeout g now).1
  | join (g : GameRecord) (agentId : String) (preferredSide : Option Side)
      (coin : Bool) (ticketId : String) (now : Nat) :
      GameStep g (joinGame g agentId preferredSide coin ticketId now).game
  | move (oracle : Oracle) (g : GameRecord) (ticketId moveInput : String)
      (thinking : Option String) (now : Nat) :
      GameStep g (makeMove oracle g ticketId moveInput thinking now).game
  | drawOffer (g : GameRecord) (ticketId : String) (now : Nat) :
      GameStep g (requestDraw g ticketId now).game
  | drawAccept (g : GameRecord) (ticketId : String) (now : Nat) :
      GameStep g (acceptDraw g ticketId now).game
  | gate (g : GameRecord) (ticketId : String) (now : Nat) :
      GameStep g (gatePlayForPendingDraw g ticketId now).game
  | abandon (g : GameRecord) (tickets : List TicketRecord) (ticketId : String) (now : Nat) :
      GameStep g (abandonJoinTicketIfUnpaired ⟨g, tickets⟩ ticketId now).game

/-- Game records reachable from a fresh `createGame` by any sequence of
operation calls (successful ones, and the saving error paths too). -/
inductive ReachableGame : GameRecord → Prop where
  | created (id : String) (white black : Option String) (now : Nat) (g : GameRecord) :
      createGame id white black now = Except.ok g → ReachableGame g
  | step (g g' : GameRecord) : ReachableGame g → GameStep g g' → ReachableGame g'

/-- The three ways an active-game `makeMove` call is rejected: nobody on
the on-turn seat, the on-turn seat controlled by a different ticket, or
the oracle rejecting the move of the on-turn caller. -/
def RejectionCause (oracle : Oracle) (game : GameRecord) (cleanTicket moveInput : String) :
    Prop :=
  game.players.get (sideFromTurn game.turn) = none ∨
  (∃ a, game.players.get (sideFromTurn game.turn) = some a ∧ a ≠ cleanTicket) ∨
  (game.players.get (sideFromTurn game.turn) = some cleanTicket ∧
    oracle (tipFen game) moveInput = none)

/-- An oracle that rejects every submission (used to instantiate the
theorems at concrete inputs). -/
def oracleReject : Oracle := fun _ _ => none

/-- A two-seated active game used to instantiate the theorems: white is
held by ticket `BBBBB`, black by ticket `AAAAA`, white to move. -/
def exActiveGame : GameRecord := {
  id := "1"
  createdAt := 0
  updatedAt := 0
  players := { white := some "BBBBB", black := some "AAAAA" }
  playerModels := { white := some "agent-b", black := some "agent-a" }
  turn := Turn.w
  status := GameStatus.active
  winner := none
  resultText := none
  turnStartedAt := 0
  history := []
  illegalMoves := []
  positions := [CANONICAL_START_FEN]
  drawRequest := none }

/-- An out-of-turn attempt by ticket `AAAAA` recorded at time `k`. -/
def exIllegalAttempt (k : Nat) : IllegalMoveRecord := {
  attemptedBy := "AAAAA"
  moveInput := "e2e4"
  reason := "It is white to move, controlled by ticket BBBBB."
  expectedTurn := some Side.white
  expectedAgent := some "BBBBB"
  statusAtAttempt := GameStatus.active
  createdAt := k }

/-- `exActiveGame` after four consecutive illegal attempts by `AAAAA`. -/
def exStreakGame : GameRecord := { exActiveGame with
  illegalMoves := [exIllegalAttempt 1, exIllegalAttempt 2, exIllegalAttempt 3,
    exIllegalAttempt 4] }

/-- A fresh draw offer by black ticket `AAAAA` (prompt not yet shown). -/
def exOfferRequest : DrawRequestRecord := {
  requestedBySide := Side.black
  requestedByTicketId := "AAAAA"
  requestedAt := 5
  promptShownToTicketId := none
  promptShownAt := none }

/-- `exActiveGame` with the draw offer of `exOfferRequest` pending. -/
def exOfferGame : GameRecord := { exActiveGame with drawRequest := some exOfferRequest }

/-- A finished (checkmated) game used to instantiate the terminal-status
theorems. -/
def exFinishedGame : GameRecord := { exActiveGame with
  status := GameStatus.checkmate
  winner := some Side.white
  resultText := some "Checkmate. white wins." }

/-- An active game with only white seated (ticket `AAAAA`). -/
def exOneSeatGame : GameRecord := { exActiveGame with
  players := { white := some "AAAAA", black := none }
  playerModels := { white := some "agent-a", black := none } }

/-- An empty active game with both seats free. -/
def exEmptyGame : GameRecord := { exActiveGame with
  players := { white := none, black := none }
  playerModels := { white := none, black := none } }

/-- A ticket record for seat white under id `AAAAA`. -/
def exWhiteTicket : TicketRecord := {
  ticketId := "AAAAA"
  gameId := "1"
  agentId := "agent-a"
  modelId := "agent-a"
  side := Side.white
  createdAt := 0
  updatedAt := 0 }

/-- A ticket record for seat black under id `AAAAA`. -/
def exBlackTicket : TicketRecord := { exWhiteTicket with side := Side.black }

example : (applyInactivityTimeout exActiveGame 300000).2 = true := by decide
example : (applyInactivityTimeout exActiveGame 299999).2 = false := by decide
example : (applyInactivityTimeout exFinishedGame 300000).2 = false := by decide
example :
    (makeMove oracleReject exStreakGame "aaaaa" "e2e4" none 10).game.status =
      GameStatus.forfeitIllegalMoves := by decide
example :
    (makeMove oracleReject exStreakGame "aaaaa" "e2e4" none 10).game.winner =
      some Side.white := by decide
example : (makeMove oracleReject exActiveGame "bbbbb" "e2e4" none 10).isErr = true := by
  decide
example :
    (joinGame exOneSeatGame "agent-b" (some Side.white) true "BBBBB" 0).isErr = true := by
  decide
example :
    (gatePlayForPendingDraw exOfferGame "BBBBB" 7).game.drawRequest =
      some { exOfferRequest with
        promptShownToTicketId := some "BBBBB"
        promptShownAt := some 7 } := by decide
example : (acceptDraw exOfferGame "AAAAA" 7).isErr = true := by decide
example : (acceptDraw exOfferGame "BBBBB" 7).game.status = GameStatus.draw := by decide

/-- The inactivity check is the identity (and does not save) on a game
that is not active. -/
theorem applyInactivityTimeout_of_terminal (g : GameRecord) (now : Nat)
    (h : g.status ≠ GameStatus.active) :
    applyInactivityTimeout g now = (g, false) := by
  simp [applyInactivityTimeout, h]

/-- The inactivity check is the identity (and does not save) while the
last activity is younger than the threshold. -/
theorem applyInactivityTimeout_of_fresh (g : GameRecord) (now : Nat)
    (h : now - lastActivityAt g < INACTIVITY_TIMEOUT_MS) :
    applyInactivityTimeout g now = (g, false) := by
  unfold applyInactivityTimeout
  split <;> first | rfl | (split <;> first | rfl | omega) | omega

/-- The inactivity check fires on an active game whose last activity is
at least the threshold in the past, and saves exactly the shown record. -/
theorem applyInactivityTimeout_fires (g : GameRecord) (now : Nat)
    (hactive : g.status = GameStatus.active)
    (hstale : INACTIVITY_TIMEOUT_MS ≤ now - lastActivityAt g) :
    applyInactivityTimeout g now =
      ({ g with
          status := GameStatus.drawInactivityTimeout
          winner := none
          resultText := some "Draw by inactivity timeout (no moves for 5 minutes)."
          turnStartedAt := now
          drawRequest := none
          updatedAt := now }, true) := by
  have h1 : ¬ g.status ≠ GameStatus.active := by simp [hactive]
  have h2 : ¬ (now - lastActivityAt g < INACTIVITY_TIMEOUT_MS) := Nat.not_lt.mpr hstale
  simp [applyInactivityTimeout, h1, h2]

/-- The game the inactivity check hands back always agrees with its input
on the fields the transition never touches. -/
theorem applyInactivityTimeout_frame (g : GameRecord) (now : Nat) :
    ((applyInactivityTimeout g now).1).history = g.history ∧
    ((applyInactivityTimeout g now).1).positions = g.positions ∧
    ((applyInactivityTimeout g now).1).turn = g.turn ∧
    ((applyInactivityTimeout g now).1).players = g.players ∧
    ((applyInactivityTimeout g now).1).playerModels = g.playerModels ∧
    ((applyInactivityTimeout g now).1).illegalMoves = g.illegalMoves ∧
    ((applyInactivityTimeout g now).1).id = g.id ∧
    ((applyInactivityTimeout g now).1).createdAt = g.createdAt := by
  unfold applyInactivityTimeout
  split
  · exact ⟨rfl, rfl, rfl, rfl, rfl, rfl, rfl, rfl⟩
  · split
    · exact ⟨rfl, rfl, rfl, rfl, rfl, rfl, rfl, rfl⟩
    · exact ⟨rfl, rfl, rfl, rfl, rfl, rfl, rfl, rfl⟩

/-- C4: an active game whose last history timestamp (or creation time when
the history is empty) lies at least `INACTIVITY_TIMEOUT_MS` (5 minutes) in
the past is force-transitioned by the inactivity check to
`draw-inactivity-timeout` with no winner and no pending draw, and the
updated record is persisted (`saveGame` called); on an already-terminal
game the check is a no-op that does not save, both on a first and on a
second application. -/
theorem applyInactivityTimeout_spec (g h : GameRecord) (now now2 now3 : Nat)
    (hactive : g.status = GameStatus.active)
    (hstale : INACTIVITY_TIMEOUT_MS ≤ now - lastActivityAt g)
    (hterm : h.status ≠ GameStatus.active) :
    (applyInactivityTimeout g now).2 = true ∧
    ((applyInactivityTimeout g now).1).status = GameStatus.drawInactivityTimeout ∧
    ((applyInactivityTimeout g now).1).winner = none ∧
    ((applyInactivityTimeout g now).1).drawRequest = none ∧
    applyInactivityTimeout h now2 = (h, false) ∧
    applyInactivityTimeout ((applyInactivityTimeout h now2).1) now3 = (h, false) := by
  have hf := applyInactivityTimeout_fires g now hactive hstale
  have ht2 := applyInactivityTimeout_of_terminal h now2 hterm
  refine ⟨?_, ?_, ?_, ?_, ht2, ?_⟩
  · rw [hf]
  · rw [hf]
  · rw [hf]
  · rw [hf]
  · rw [ht2]
    exact applyInactivityTimeout_of_terminal h now3 hterm

/-- Witness for `applyInactivityTimeout_spec` at a concrete stale active
game and a concrete finished game. -/
theorem applyInactivityTimeout_spec_witness :
    (applyInactivityTimeout exActiveGame 300000).2 = true ∧
    ((applyInactivityTimeout exActiveGame 300000).1).status =
      GameStatus.drawInactivityTimeout ∧
    ((applyInactivityTimeout exActiveGame 300000).1).winner = none ∧
    ((applyInactivityTimeout exActiveGame 300000).1).drawRequest = none ∧
    applyInactivityTimeout exFinishedGame 5 = (exFinishedGame, false) ∧
    applyInactivityTimeout ((applyInactivityTimeout exFinishedGame 5).1) 9 =
      (exFinishedGame, false) :=
  applyInactivityTimeout_spec exActiveGame exFinishedGame 300000 5 9 rfl
    (by decide) (by decide)

/-- C10: when the inactivity check fires on an active game, the result is
the input record with only `status`, `winner`, `resultText`,
`turnStartedAt`, `drawRequest` and `updatedAt` replaced; `history`,
`positions`, `turn`, `players`, `playerModels`, `illegalMoves`, `id` and
`createdAt` are left unchanged. -/
theorem applyInactivityTimeout_frame_spec (g : GameRecord) (now : Nat)
    (hactive : g.status = GameStatus.active)
    (hstale : INACTIVITY_TIMEOUT_MS ≤ now - lastActivityAt g) :
    (applyInactivityTimeout g now).1 =
      { g with
          status := GameStatus.drawInactivityTimeout
          winner := none
          resultText := some "Draw by inactivity timeout (no moves for 5 minutes)."
          turnStartedAt := now
          drawRequest := none
          updatedAt := now } ∧
    ((applyInactivityTimeout g now).1).history = g.history ∧
    ((applyInactivityTimeout g now).1).positions = g.positions ∧
    ((applyInactivityTimeout g now).1).turn = g.turn ∧
    ((applyInactivityTimeout g now).1).players = g.players ∧
    ((applyInactivityTimeout g now).1).playerModels = g.playerModels ∧
    ((applyInactivityTimeout g now).1).illegalMoves = g.illegalMoves ∧
    ((applyInactivityTimeout g now).1).id = g.id ∧
    ((applyInactivityTimeout g now).1).createdAt = g.createdAt := by
  have hf := applyInactivityTimeout_fires g now hactive hstale
  refine ⟨?_, ?_, ?_, ?_, ?_, ?_, ?_, ?_, ?_⟩ <;> rw [hf]

/-- Witness for `applyInactivityTimeout_frame_spec` at a concrete stale
active game. -/
theorem applyInactivityTimeout_frame_spec_witness :
    (applyInactivityTimeout exActiveGame 300000).1 =
      { exActiveGame with
          status := GameStatus.drawInactivityTimeout
          winner := none
          resultText := some "Draw by inactivity timeout (no moves for 5 minutes)."
          turnStartedAt := 300000
          drawRequest := none
          updatedAt := 300000 } ∧
    ((applyInactivityTimeout exActiveGame 300000).1).history = exActiveGame.history ∧
    ((applyInactivityTimeout exActiveGame 300000).1).positions = exActiveGame.positions ∧
    ((applyInactivityTimeout exActiveGame 300000).1).turn = exActiveGame.turn ∧
    ((applyInactivityTimeout exActiveGame 300000).1).players = exActiveGame.players ∧
    ((applyInactivityTimeout exActiveGame 300000).1).playerModels =
      exActiveGame.playerModels ∧
    ((applyInactivityTimeout exActiveGame 300000).1).illegalMoves =
      exActiveGame.illegalMoves ∧
    ((applyInactivityTimeout exActiveGame 300000).1).id = exActiveGame.id ∧
    ((applyInactivityTimeout exActiveGame 300000).1).createdAt =
      exActiveGame.createdAt :=
  applyInactivityTimeout_frame_spec exActiveGame 300000 rfl (by decide)

/-- When the lock entry can never be created, the acquisition loop ends
in the timeout error exactly when the elapsed poll time reaches the
5-second budget. -/
theorem acquireFrom_timeout (avail : Nat → Bool) (hall : ∀ j, avail j = false) :
    ∀ fuel k, k ≤ 100 → 100 < k + fuel →
      acquireFrom avail k fuel = LockAcquire.timedOut JOIN_LOCK_TIMEOUT_MS := by
  intro fuel
  induction fuel with
  | zero => intro k hk hf; omega
  | succ n ih =>
    intro k hk hf
    unfold acquireFrom
    rw [hall k]
    simp only [Bool.false_eq_true, if_false, JOIN_LOCK_TIMEOUT_MS, JOIN_LOCK_POLL_MS]
    by_cases hlim : (5000 : Nat) ≤ 50 * k
    · rw [if_pos hlim]
      have hk100 : k = 100 := by omega
      subst hk100
      rfl
    · rw [if_neg hlim]
      have := ih (k + 1) (by omega) (by omega)
      simpa [JOIN_LOCK_TIMEOUT_MS] using this

/-- C9: the join lock polls at a fixed 50 ms interval with a 5000 ms
budget; when the lock entry can never be created the acquisition fails
with the timeout `CliError` after a total wait of exactly
`JOIN_LOCK_TIMEOUT_MS`; and once acquired, the lock entry is removed on
every exit path of the protected operation — the outcome of `fn`
(normal return or thrown error alike) is passed through with the lock no
longer held. -/
theorem withJoinLock_spec {α : Type} (avail avail2 : Nat → Bool) (gameId : String)
    (fn : Except String α)
    (hall : ∀ k, avail k = false) (h0 : avail2 0 = true) :
    JOIN_LOCK_POLL_MS = 50 ∧
    JOIN_LOCK_TIMEOUT_MS = 5000 ∧
    acquireJoinLock avail = LockAcquire.timedOut JOIN_LOCK_TIMEOUT_MS ∧
    withJoinLock avail gameId fn =
      (Except.error ("Timed out waiting to join game " ++ gameId ++ ". Please retry."),
        false) ∧
    withJoinLock avail2 gameId fn = (fn, false) := by
  have hto : acquireJoinLock avail = LockAcquire.timedOut JOIN_LOCK_TIMEOUT_MS :=
    acquireFrom_timeout avail hall 101 0 (by omega) (by omega)
  have hac : acquireJoinLock avail2 = LockAcquire.acquired 0 := by
    unfold acquireJoinLock acquireFrom
    rw [h0]
    rfl
  refine ⟨rfl, rfl, hto, ?_, ?_⟩
  · unfold withJoinLock
    rw [hto]
  · unfold withJoinLock
    rw [hac]
    cases fn <;> rfl

/-- Witness for `withJoinLock_spec`: a lock that is always busy versus one
that is immediately free, with a protected operation that throws. -/
theorem withJoinLock_spec_witness :
    JOIN_LOCK_POLL_MS = 50 ∧
    JOIN_LOCK_TIMEOUT_MS = 5000 ∧
    acquireJoinLock (fun _ => false) = LockAcquire.timedOut JOIN_LOCK_TIMEOUT_MS ∧
    withJoinLock (fun _ => false) "1" (Except.error "boom" : Except String Nat) =
      (Except.error "Timed out waiting to join game 1. Please retry.", false) ∧
    withJoinLock (fun _ => true) "1" (Except.error "boom" : Except String Nat) =
      (Except.error "boom", false) :=
  withJoinLock_spec (fun _ => false) (fun _ => true) "1"
    (Except.error "boom") (fun _ => rfl) rfl

/-- `recordIllegalMove` never changes the status of a non-active game
(the forfeit escalation is guarded by `status === "active"`). -/
theorem recordIllegalMove_status_of_terminal (g : GameRecord)
    (c m r : String) (now : Nat) (h : g.status ≠ GameStatus.active) :
    (recordIllegalMove g c m r now).1.status = g.status := by
  unfold recordIllegalMove
  simp [h]

/-- A `joinGame` call on a non-active game leaves the status unchanged. -/
theorem joinGame_status_of_terminal (g : GameRecord) (a : String)
    (p : Option Side) (c : Bool) (t : String) (now : Nat)
    (h : g.status ≠ GameStatus.active) :
    (joinGame g a p c t now).game.status = g.status := by
  unfold joinGame
  split
  · rfl
  · rw [applyInactivityTimeout_of_terminal g now h]
    simp [JoinOutcome.game, h]

/-- A `makeMove` call on a non-active game records the attempt but leaves
the status unchanged. -/
theorem makeMove_status_of_terminal (oracle : Oracle) (g : GameRecord)
    (t m : String) (th : Option String) (now : Nat)
    (h : g.status ≠ GameStatus.active) :
    (makeMove oracle g t m th now).game.status = g.status := by
  unfold makeMove
  split
  · rfl
  · rw [applyInactivityTimeout_of_terminal g now h]
    simp only []
    rw [if_pos h]
    exact recordIllegalMove_status_of_terminal g _ m _ now h

/-- A `requestDraw` call on a non-active game leaves the status
unchanged. -/
theorem requestDraw_status_of_terminal (g : GameRecord) (t : String) (now : Nat)
    (h : g.status ≠ GameStatus.active) :
    (requestDraw g t now).game.status = g.status := by
  unfold requestDraw
  split
  · rfl
  · rw [applyInactivityTimeout_of_terminal g now h]
    simp [DrawOutcome.game, h]

/-- An `acceptDraw` call on a non-active game leaves the status
unchanged. -/
theorem acceptDraw_status_of_terminal (g : GameRecord) (t : String) (now : Nat)
    (h : g.status ≠ GameStatus.active) :
    (acceptDraw g t now).game.status = g.status := by
  unfold acceptDraw
  split
  · rfl
  · rw [applyInactivityTimeout_of_terminal g now h]
    simp [DrawOutcome.game, h]

/-- A `gatePlayForPendingDraw` call on a non-active game leaves the
status unchanged. -/
theorem gate_status_of_terminal (g : GameRecord) (t : String) (now : Nat)
    (h : g.status ≠ GameStatus.active) :
    (gatePlayForPendingDraw g t now).game.status = g.status := by
  unfold gatePlayForPendingDraw
  split
  · rfl
  · rw [applyInactivityTimeout_of_terminal g now h]
    simp only []
    split
    · rfl
    · rw [if_pos h]
      rfl

/-- An `abandonJoinTicketIfUnpaired` call never changes the status (and
in particular leaves a non-active game non-active). -/
theorem abandon_status_of_terminal (g : GameRecord) (tickets : List TicketRecord)
    (t : String) (now : Nat) (h : g.status ≠ GameStatus.active) :
    (abandonJoinTicketIfUnpaired ⟨g, tickets⟩ t now).game.status = g.status := by
  unfold abandonJoinTicketIfUnpaired
  split
  · rfl
  · split
    · rfl
    · rw [applyInactivityTimeout_of_terminal g now h]
      simp only []
      split
      · rfl
      · split
        · rfl
        · rfl

/-- C3: terminal statuses are absorbing.  For every game whose status is
not `active`, no operation — `makeMove`, `joinGame`, `requestDraw`,
`acceptDraw`, `gatePlayForPendingDraw`, `abandonJoinTicketIfUnpaired`, or
the inactivity check applied by every read path — changes the status of
the record it leaves in the store. -/
theorem terminal_status_absorbing (g g' : GameRecord)
    (hterm : g.status ≠ GameStatus.active) (hstep : GameStep g g') :
    g'.status = g.status := by
  cases hstep with
  | inactivity g now => rw [applyInactivityTimeout_of_terminal g now hterm]
  | join g a p c t now => exact joinGame_status_of_terminal g a p c t now hterm
  | move oracle g t m th now => exact makeMove_status_of_terminal oracle g t m th now hterm
  | drawOffer g t now => exact requestDraw_status_of_terminal g t now hterm
  | drawAccept g t now => exact acceptDraw_status_of_terminal g t now hterm
  | gate g t now => exact gate_status_of_terminal g t now hterm
  | abandon g tickets t now => exact abandon_status_of_terminal g tickets t now hterm

/-- Witness for `terminal_status_absorbing`: the inactivity check applied
to a finished game keeps the `checkmate` status. -/
theorem terminal_status_absorbing_witness :
    ((applyInactivityTimeout exFinishedGame 300000).1).status = exFinishedGame.status :=
  terminal_status_absorbing exFinishedGame
    ((applyInactivityTimeout exFinishedGame 300000).1)
    (by decide) (GameStep.inactivity exFinishedGame 300000)

/-- A successful `createGame` hands back a record with the single initial
position and an empty history. -/
theorem createGame_ok (id : String) (w b : Option String) (now : Nat) (g : GameRecord)
    (h : createGame id w b now = Except.ok g) :
    g.positions = [CANONICAL_START_FEN] ∧ g.history = [] := by
  unfold createGame at h
  split at h
  · cases h
  · split at h
    · cases h
    · cases h
      exact ⟨rfl, rfl⟩

/-- `recordIllegalMove` touches neither the history nor the positions. -/
theorem recordIllegalMove_board (g : GameRecord) (c m r : String) (now : Nat) :
    (recordIllegalMove g c m r now).1.history = g.history ∧
    (recordIllegalMove g c m r now).1.positions = g.positions := by
  refine ⟨?_, ?_⟩ <;> (simp only [recordIllegalMove]; split_ifs <;> rfl)

/-- `joinGame` touches neither the history nor the positions. -/
theorem joinGame_board (g : GameRecord) (a : String) (p : Option Side)
    (c : Bool) (t : String) (now : Nat) :
    (joinGame g a p c t now).game.history = g.history ∧
    (joinGame g a p c t now).game.positions = g.positions := by
  obtain ⟨h1, h2, -, -, -, -, -, -⟩ := applyInactivityTimeout_frame g now
  simp only [joinGame]
  repeat' split
  all_goals first | exact ⟨rfl, rfl⟩ | exact ⟨h1, h2⟩

/-- `requestDraw` touches neither the history nor the positions. -/
theorem requestDraw_board (g : GameRecord) (t : String) (now : Nat) :
    (requestDraw g t now).game.history = g.history ∧
    (requestDraw g t now).game.positions = g.positions := by
  obtain ⟨h1, h2, -, -, -, -, -, -⟩ := applyInactivityTimeout_frame g now
  simp only [requestDraw]
  repeat' split
  all_goals first | exact ⟨rfl, rfl⟩ | exact ⟨h1, h2⟩

/-- `acceptDraw` touches neither the history nor the positions. -/
theorem acceptDraw_board (g : GameRecord) (t : String) (now : Nat) :
    (acceptDraw g t now).game.history = g.history ∧
    (acceptDraw g t now).game.positions = g.positions := by
  obtain ⟨h1, h2, -, -, -, -, -, -⟩ := applyInactivityTimeout_frame g now
  simp only [acceptDraw]
  repeat' split
  all_goals first | exact ⟨rfl, rfl⟩ | exact ⟨h1, h2⟩

/-- `gatePlayForPendingDraw` touches neither the history nor the
positions. -/
theorem gate_board (g : GameRecord) (t : String) (now : Nat) :
    (gatePlayForPendingDraw g t now).game.history = g.history ∧
    (gatePlayForPendingDraw g t now).game.positions = g.positions := by
  obtain ⟨h1, h2, -, -, -, -, -, -⟩ := applyInactivityTimeout_frame g now
  simp only [gatePlayForPendingDraw]
  repeat' split
  all_goals first | exact ⟨rfl, rfl⟩ | exact ⟨h1, h2⟩

/-- `abandonJoinTicketIfUnpaired` touches neither the history nor the
positions. -/
theorem abandon_board (g : GameRecord) (tickets : List TicketRecord)
    (t : String) (now : Nat) :
    (abandonJoinTicketIfUnpaired ⟨g, tickets⟩ t now).game.history = g.history ∧
    (abandonJoinTicketIfUnpaired ⟨g, tickets⟩ t now).game.positions = g.positions := by
  obtain ⟨h1, h2, -, -, -, -, -, -⟩ := applyInactivityTimeout_frame g now
  simp only [abandonJoinTicketIfUnpaired]
  repeat' split
  all_goals first | exact ⟨rfl, rfl⟩ | exact ⟨h1, h2⟩

/-- A successful `makeMove` appends exactly one entry to the history and
one position (the oracle's post-move position, also recorded in the
returned move). -/
theorem makeMove_ok_appends (oracle : Oracle) (g : GameRecord) (t m : String)
    (th : Option String) (now : Nat) (g' : GameRecord) (mv : MoveRecord)
    (hok : makeMove oracle g t m th now = MoveOutcome.ok g' mv) :
    g'.history = ((applyInactivityTimeout g now).1).history ++ [mv] ∧
    g'.positions = ((applyInactivityTimeout g now).1).positions ++ [mv.fenAfter] := by
  simp only [makeMove] at hok
  repeat' split at hok
  all_goals cases hok
  exact ⟨rfl, rfl⟩

/-- `makeMove` preserves the positions/history length invariant: the
error paths leave both untouched and the success path pushes one entry to
each. -/
theorem makeMove_invariant (oracle : Oracle) (g : GameRecord) (t m : String)
    (th : Option String) (now : Nat)
    (hlen : g.positions.length = g.history.length + 1) :
    (makeMove oracle g t m th now).game.positions.length =
      (makeMove oracle g t m th now).game.history.length + 1 := by
  obtain ⟨h1, h2, -, -, -, -, -, -⟩ := applyInactivityTimeout_frame g now
  simp only [makeMove]
  repeat' split
  all_goals simp only [MoveOutcome.game]
  all_goals first
    | exact hlen
    | rw [(recordIllegalMove_board _ _ _ _ _).1, (recordIllegalMove_board _ _ _ _ _).2,
        h1, h2, hlen]
    | simp [h1, h2, hlen]

/-- C2: for every game record reachable by any sequence of operations the
invariant `positions.length = history.length + 1` holds; `createGame`
establishes it with one initial position and an empty history, the six
non-move operations touch neither list, and a successful `makeMove` —
the only appending operation — pushes exactly one entry to each. -/
theorem positions_history_invariant :
    (∀ g : GameRecord, ReachableGame g →
      g.positions.length = g.history.length + 1) ∧
    (∀ id w b now g, createGame id w b now = Except.ok g →
      g.positions = [CANONICAL_START_FEN] ∧ g.history = []) ∧
    (∀ g now, ((applyInactivityTimeout g now).1).history = g.history ∧
      ((applyInactivityTimeout g now).1).positions = g.positions) ∧
    (∀ g a p c t now, (joinGame g a p c t now).game.history = g.history ∧
      (joinGame g a p c t now).game.positions = g.positions) ∧
    (∀ g t now, (requestDraw g t now).game.history = g.history ∧
      (requestDraw g t now).game.positions = g.positions) ∧
    (∀ g t now, (acceptDraw g t now).game.history = g.history ∧
      (acceptDraw g t now).game.positions = g.positions) ∧
    (∀ g t now, (gatePlayForPendingDraw g t now).game.history = g.history ∧
      (gatePlayForPendingDraw g t now).game.positions = g.positions) ∧
    (∀ g tickets t now,
      (abandonJoinTicketIfUnpaired ⟨g, tickets⟩ t now).game.history = g.history ∧
      (abandonJoinTicketIfUnpaired ⟨g, tickets⟩ t now).game.positions = g.positions) ∧
    (∀ oracle g t m th now g' mv,
      makeMove oracle g t m th now = MoveOutcome.ok g' mv →
      g'.history = ((applyInactivityTimeout g now).1).history ++ [mv] ∧
      g'.positions = ((applyInactivityTimeout g now).1).positions ++ [mv.fenAfter]) := by
  refine ⟨?_, createGame_ok, ?_, joinGame_board, requestDraw_board, acceptDraw_board,
    gate_board, abandon_board, makeMove_ok_appends⟩
  · intro g hg
    induction hg with
    | created id w b now g h =>
      obtain ⟨hp, hh⟩ := createGame_ok id w b now g h
      rw [hp, hh]
      rfl
    | step g g' _hr hstep ih =>
      cases hstep with
      | inactivity g now =>
        obtain ⟨h1, h2, -, -, -, -, -, -⟩ := applyInactivityTimeout_frame g now
        rw [h1, h2, ih]
      | join g a p c t now =>
        obtain ⟨h1, h2⟩ := joinGame_board g a p c t now
        rw [h1, h2, ih]
      | move oracle g t m th now => exact makeMove_invariant oracle g t m th now ih
      | drawOffer g t now =>
        obtain ⟨h1, h2⟩ := requestDraw_board g t now
        rw [h1, h2, ih]
      | drawAccept g t now =>
        obtain ⟨h1, h2⟩ := acceptDraw_board g t now
        rw [h1, h2, ih]
      | gate g t now =>
        obtain ⟨h1, h2⟩ := gate_board g t now
        rw [h1, h2, ih]
      | abandon g tickets t now =>
        obtain ⟨h1, h2⟩ := abandon_board g tickets t now
        rw [h1, h2, ih]
  · intro g now
    obtain ⟨h1, h2, -, -, -, -, -, -⟩ := applyInactivityTimeout_frame g now
    exact ⟨h1, h2⟩

/-- Witness for `positions_history_invariant`: the invariant evaluated on
a freshly created game, reachable by the base constructor. -/
theorem positions_history_invariant_witness :
    exEmptyGame.positions.length = exEmptyGame.history.length + 1 :=
  positions_history_invariant.1 exEmptyGame
    (ReachableGame.created "1" none none 0 exEmptyGame rfl)

/-- Behaviour of `recordIllegalMove` on an active game: the attempt is
appended (with the on-turn expectations and the active status at attempt
time), the thrown reason is the one passed in, and the game forfeits with
the offender's opponent as winner exactly when the trailing streak of the
offender in the updated log reaches the threshold. -/
theorem recordIllegalMove_spec (g : GameRecord) (c m r : String) (now : Nat)
    (hactive : g.status = GameStatus.active) :
    (recordIllegalMove g c m r now).2 = r ∧
    (recordIllegalMove g c m r now).1.illegalMoves = g.illegalMoves ++
      [{ attemptedBy := c, moveInput := m, reason := r,
         expectedTurn := some (sideFromTurn g.turn),
         expectedAgent := g.players.get (sideFromTurn g.turn),
         statusAtAttempt := GameStatus.active, createdAt := now }] ∧
    (trailingStreak ((recordIllegalMove g c m r now).1.illegalMoves) c <
        MAX_CONSECUTIVE_ILLEGAL_MOVES →
      (recordIllegalMove g c m r now).1.status = GameStatus.active ∧
      (recordIllegalMove g c m r now).1.winner = g.winner) ∧
    (MAX_CONSECUTIVE_ILLEGAL_MOVES ≤
        trailingStreak ((recordIllegalMove g c m r now).1.illegalMoves) c →
      (recordIllegalMove g c m r now).1.status = GameStatus.forfeitIllegalMoves ∧
      (recordIllegalMove g c m r now).1.winner =
        (sideForTicket g c).map oppositeSide) := by
  refine ⟨rfl, ?_, ?_, ?_⟩
  · simp only [recordIllegalMove, hactive, eq_self_iff_true, true_and, ite_true]
    try rfl
    try (split_ifs with h <;> rfl)
  · simp only [recordIllegalMove, hactive, eq_self_iff_true, true_and, ite_true]
    split_ifs with h
    all_goals first
      | (intro hlt; exact absurd h (Nat.not_le.mpr hlt))
      | (intro _; exact ⟨rfl, rfl⟩)
  · simp only [recordIllegalMove, hactive, eq_self_iff_true, true_and, ite_true]
    split_ifs with h
    all_goals first
      | (intro hle; exact absurd hle h)
      | (intro _; refine ⟨rfl, ?_⟩; simp [sideForTicket, oppositeSide, *])

/-- C1: every rejected `makeMove` call on an active, not-yet-stale game
(wrong turn, unseated on-turn seat, or oracle-rejected move) raises and
appends one illegal-attempt record for the caller; when the trailing run
of attempts by the same ticket in the updated log reaches the threshold
of `MAX_CONSECUTIVE_ILLEGAL_MOVES = 5`, the saved game has transitioned
to `forfeit-illegal-moves` with the opponent of the offending ticket's
seat declared winner (no winner when the offender holds no seat), while
below the threshold the game stays active. -/
theorem makeMove_illegal_streak_spec (oracle : Oracle) (g : GameRecord) (t m : String)
    (th : Option String) (now : Nat)
    (htrim : (strTrim t).isEmpty = false)
    (hactive : g.status = GameStatus.active)
    (hfresh : now - lastActivityAt g < INACTIVITY_TIMEOUT_MS)
    (hrej : RejectionCause oracle g (normalizeTicketId t) m) :
    ∃ reason g',
      makeMove oracle g t m th now = MoveOutcome.err g' reason ∧
      g'.illegalMoves = g.illegalMoves ++
        [{ attemptedBy := normalizeTicketId t, moveInput := m, reason := reason,
           expectedTurn := some (sideFromTurn g.turn),
           expectedAgent := g.players.get (sideFromTurn g.turn),
           statusAtAttempt := GameStatus.active, createdAt := now }] ∧
      (trailingStreak g'.illegalMoves (normalizeTicketId t) <
          MAX_CONSECUTIVE_ILLEGAL_MOVES →
        g'.status = GameStatus.active ∧ g'.winner = g.winner) ∧
      (MAX_CONSECUTIVE_ILLEGAL_MOVES ≤
          trailingStreak g'.illegalMoves (normalizeTicketId t) →
        g'.status = GameStatus.forfeitIllegalMoves ∧
        g'.winner = (sideForTicket g (normalizeTicketId t)).map oppositeSide) := by
  have hApply : (applyInactivityTimeout g now).1 = g := by
    rw [applyInactivityTimeout_of_fresh g now hfresh]
  have hne : ¬ g.status ≠ GameStatus.active := by simp [hactive]
  simp only [makeMove, htrim, Bool.false_eq_true, if_false, hApply, hne]
  rcases hrej with hnone | ⟨a, ha, hna⟩ | ⟨hseat, horacle⟩
  · simp only [hnone]
    obtain ⟨e1, e2, e3, e4⟩ := recordIllegalMove_spec g (normalizeTicketId t) m
      ("No agent has joined as " ++ sideName (sideFromTurn g.turn) ++ " yet.") now hactive
    refine ⟨_, _, rfl, ?_, e3, e4⟩
    rw [e2, e1, hnone]
  · simp only [ha]
    rw [if_pos hna]
    obtain ⟨e1, e2, e3, e4⟩ := recordIllegalMove_spec g (normalizeTicketId t) m
      ("It is " ++ sideName (sideFromTurn g.turn) ++ " to move, controlled by ticket "
        ++ a ++ ".") now hactive
    refine ⟨_, _, rfl, ?_, e3, e4⟩
    rw [e2, e1, ha]
  · simp only [hseat]
    rw [if_neg (fun hc => hc rfl)]
    simp only [horacle]
    obtain ⟨e1, e2, e3, e4⟩ := recordIllegalMove_spec g (normalizeTicketId t) m
      ("Illegal move " ++ m ++ ".") now hactive
    refine ⟨_, _, rfl, ?_, e3, e4⟩
    rw [e2, e1, hseat]

/-- Witness for `makeMove_illegal_streak_spec`: the fifth consecutive
out-of-turn submission by black ticket `AAAAA` raises and forfeits the
game to white. -/
theorem makeMove_illegal_streak_spec_witness :
    ∃ reason g',
      makeMove oracleReject exStreakGame "aaaaa" "e2e4" none 10 =
        MoveOutcome.err g' reason ∧
      g'.illegalMoves = exStreakGame.illegalMoves ++
        [{ attemptedBy := normalizeTicketId "aaaaa", moveInput := "e2e4",
           reason := reason,
           expectedTurn := some (sideFromTurn exStreakGame.turn),
           expectedAgent := exStreakGame.players.get (sideFromTurn exStreakGame.turn),
           statusAtAttempt := GameStatus.active, createdAt := 10 }] ∧
      (trailingStreak g'.illegalMoves (normalizeTicketId "aaaaa") <
          MAX_CONSECUTIVE_ILLEGAL_MOVES →
        g'.status = GameStatus.active ∧ g'.winner = exStreakGame.winner) ∧
      (MAX_CONSECUTIVE_ILLEGAL_MOVES ≤
          trailingStreak g'.illegalMoves (normalizeTicketId "aaaaa") →
        g'.status = GameStatus.forfeitIllegalMoves ∧
        g'.winner =
          (sideForTicket exStreakGame (normalizeTicketId "aaaaa")).map oppositeSide) :=
  makeMove_illegal_streak_spec oracleReject exStreakGame "aaaaa" "e2e4" none 10
    (by decide) rfl (by decide)
    (Or.inr (Or.inl ⟨"BBBBB", rfl, by decide⟩))

/-- C5: for an active game with a pending draw offer made by another
ticket and not yet shown to the caller, the first gate call returns the
prompt interrupt: no move is applied, the offer stays pending, and it is
now marked as shown to the caller; the immediately following gate call by
the same ticket silently clears the pending offer (implicit decline) and
signals the move may proceed — exactly one call is interrupted per
offer. -/
theorem gate_two_calls_spec (g : GameRecord) (t : String) (r : DrawRequestRecord)
    (now1 now2 : Nat)
    (ht : (strTrim t).isEmpty = false)
    (hactive : g.status = GameStatus.active)
    (hreq : g.drawRequest = some r)
    (hother : r.requestedByTicketId ≠ normalizeTicketId t)
    (hshown : r.promptShownToTicketId ≠ some (normalizeTicketId t))
    (hfresh1 : now1 - lastActivityAt g < INACTIVITY_TIMEOUT_MS)
    (hfresh2 : now2 - lastActivityAt g < INACTIVITY_TIMEOUT_MS) :
    gatePlayForPendingDraw g t now1 = GateOutcome.ok {
      state := GateState.gatePrompt
      game := { g with
        drawRequest := some { r with
          promptShownToTicketId := some (normalizeTicketId t)
          promptShownAt := some now1 }
        updatedAt := now1 }
      request := some { r with
        promptShownToTicketId := some (normalizeTicketId t)
        promptShownAt := some now1 } } ∧
    gatePlayForPendingDraw
      { g with
        drawRequest := some { r with
          promptShownToTicketId := some (normalizeTicketId t)
          promptShownAt := some now1 }
        updatedAt := now1 } t now2 =
      GateOutcome.ok {
        state := GateState.gateNone
        game := { g with drawRequest := none, updatedAt := now2 }
        request := some { r with
          promptShownToTicketId := some (normalizeTicketId t)
          promptShownAt := some now1 } } := by
  have hApply1 : (applyInactivityTimeout g now1).1 = g := by
    rw [applyInactivityTimeout_of_fresh g now1 hfresh1]
  constructor
  · simp only [gatePlayForPendingDraw, ht, Bool.false_eq_true, if_false, hApply1, hreq]
    rw [if_neg (fun hc => hc hactive)]
    rw [if_neg hother]
    rw [if_neg hshown]
  · have hApply2 := applyInactivityTimeout_of_fresh
      { g with
        drawRequest := some { r with
          promptShownToTicketId := some (normalizeTicketId t)
          promptShownAt := some now1 }
        updatedAt := now1 } now2 hfresh2
    simp only [gatePlayForPendingDraw, ht, Bool.false_eq_true, if_false, hApply2]
    rw [if_neg (fun hc => hc hactive)]
    rw [if_neg hother]
    rw [if_pos trivial]

/-- Witness for `gate_two_calls_spec`: white ticket `BBBBB` is gated once
on black's offer, and its next call clears the offer. -/
theorem gate_two_calls_spec_witness :
    gatePlayForPendingDraw exOfferGame "BBBBB" 7 = GateOutcome.ok {
      state := GateState.gatePrompt
      game := { exOfferGame with
        drawRequest := some { exOfferRequest with
          promptShownToTicketId := some (normalizeTicketId "BBBBB")
          promptShownAt := some 7 }
        updatedAt := 7 }
      request := some { exOfferRequest with
        promptShownToTicketId := some (normalizeTicketId "BBBBB")
        promptShownAt := some 7 } } ∧
    gatePlayForPendingDraw
      { exOfferGame with
        drawRequest := some { exOfferRequest with
          promptShownToTicketId := some (normalizeTicketId "BBBBB")
          promptShownAt := some 7 }
        updatedAt := 7 } "BBBBB" 8 =
      GateOutcome.ok {
        state := GateState.gateNone
        game := { exOfferGame with drawRequest := none, updatedAt := 8 }
        request := some { exOfferRequest with
          promptShownToTicketId := some (normalizeTicketId "BBBBB")
          promptShownAt := some 7 } } :=
  gate_two_calls_spec exOfferGame "BBBBB" exOfferRequest 7 8
    (by decide) rfl rfl (by decide) (by decide) (by decide) (by decide)

/-- The inactivity check hands back a game without a pending draw when
the input had none. -/
theorem applyInactivityTimeout_drawRequest_none (g : GameRecord) (now : Nat)
    (h : g.drawRequest = none) :
    ((applyInactivityTimeout g now).1).drawRequest = none := by
  unfold applyInactivityTimeout
  split
  · exact h
  · split
    · exact h
    · rfl

/-- The inactivity check either clears the pending draw or leaves it as
it was. -/
theorem applyInactivityTimeout_drawRequest (g : GameRecord) (now : Nat) :
    ((applyInactivityTimeout g now).1).drawRequest = none ∨
    ((applyInactivityTimeout g now).1).drawRequest = g.drawRequest := by
  unfold applyInactivityTimeout
  split
  · exact Or.inr rfl
  · split
    · exact Or.inr rfl
    · exact Or.inl rfl

/-- C6: `acceptDraw` raises whenever no draw offer is pending, raises
whenever the caller is the ticket that made the pending offer
(self-accept forbidden), and, called on an active game by a seated
ticket other than the offerer (in particular the seated opponent), it
transitions the game to the terminal by-agreement `draw` status with no
winner and clears the pending offer. -/
theorem acceptDraw_spec :
    (∀ g t now, g.drawRequest = none → (acceptDraw g t now).isErr = true) ∧
    (∀ g t now r, g.drawRequest = some r →
      r.requestedByTicketId = normalizeTicketId t →
      (acceptDraw g t now).isErr = true) ∧
    (∀ g t now r side, (strTrim t).isEmpty = false →
      g.status = GameStatus.active →
      now - lastActivityAt g < INACTIVITY_TIMEOUT_MS →
      sideForTicket g (normalizeTicketId t) = some side →
      g.drawRequest = some r →
      r.requestedByTicketId ≠ normalizeTicketId t →
      acceptDraw g t now = DrawOutcome.ok { g with
        status := GameStatus.draw
        winner := none
        resultText := some "Draw by agreement."
        turnStartedAt := now
        drawRequest := none
        updatedAt := now }) := by
  refine ⟨?_, ?_, ?_⟩
  · intro g t now h
    have hdr := applyInactivityTimeout_drawRequest_none g now h
    simp only [acceptDraw, hdr]
    repeat' split
    all_goals rfl
  · intro g t now r hr hself
    rcases applyInactivityTimeout_drawRequest g now with hdr | hdr
    · simp only [acceptDraw, hdr]
      repeat' split
      all_goals rfl
    · rw [hr] at hdr
      simp only [acceptDraw, hdr]
      repeat' split
      all_goals first | rfl | (exact absurd hself (by assumption))
  · intro g t now r side ht hactive hfresh hseat hr hne
    have hApply : (applyInactivityTimeout g now).1 = g := by
      rw [applyInactivityTimeout_of_fresh g now hfresh]
    simp only [acceptDraw, ht, Bool.false_eq_true, if_false, hApply, hr, hseat]
    rw [if_neg (fun hc => hc hactive)]
    rw [if_neg hne]

/-- Witness for `acceptDraw_spec`: no-offer and self-accept calls raise;
the opponent's accept ends the game in a draw by agreement. -/
theorem acceptDraw_spec_witness :
    (acceptDraw exActiveGame "AAAAA" 3).isErr = true ∧
    (acceptDraw exOfferGame "AAAAA" 3).isErr = true ∧
    acceptDraw exOfferGame "BBBBB" 7 = DrawOutcome.ok { exOfferGame with
      status := GameStatus.draw
      winner := none
      resultText := some "Draw by agreement."
      turnStartedAt := 7
      drawRequest := none
      updatedAt := 7 } :=
  ⟨acceptDraw_spec.1 exActiveGame "AAAAA" 3 rfl,
   acceptDraw_spec.2.1 exOfferGame "AAAAA" 3 exOfferRequest rfl (by decide),
   acceptDraw_spec.2.2 exOfferGame "BBBBB" 7 exOfferRequest Side.white
     (by decide) rfl (by decide) (by decide) rfl (by decide)⟩

/-- C7 counterexample: joining with preferred side white while white is
occupied and black is free does not assign the free side — the call
raises the seat-occupied conflict error and assigns nothing. -/
theorem joinGame_preferred_occupied_counterexample :
    joinGame exOneSeatGame "agent-b" (some Side.white) true "BBBBB" 0 =
      JoinOutcome.err exOneSeatGame
        "white is already occupied by ticket AAAAA." ∧
    (joinGame exOneSeatGame "agent-b" (some Side.white) true "BBBBB" 0).isErr = true := by
  constructor
  · decide
  · decide

/-- C7 (amended): side assignment in `joinGame` on an active game.  A
given preferred side is used when free but the call fails with the
seat-occupied conflict error when it is taken (no fallback to the free
side); without a preference, both sides free yields the coin-chosen
side, a single free side is assigned, and the call fails when both
sides are occupied. -/
theorem joinGame_side_assignment_spec :
    (∀ g a s coin tid now, (strTrim a).isEmpty = false →
      g.status = GameStatus.active →
      now - lastActivityAt g < INACTIVITY_TIMEOUT_MS →
      g.players.get s = none →
      joinGame g a (some s) coin tid now = JoinOutcome.ok
        { g with
            updatedAt := now
            players := g.players.set s (some tid)
            playerModels := g.playerModels.set s (some (strTrim a)) } s tid) ∧
    (∀ g a s coin tid now occ, (strTrim a).isEmpty = false →
      g.status = GameStatus.active →
      now - lastActivityAt g < INACTIVITY_TIMEOUT_MS →
      g.players.get s = some occ →
      joinGame g a (some s) coin tid now = JoinOutcome.err g
        (sideName s ++ " is already occupied by ticket " ++ occ ++ ".")) ∧
    (∀ g a coin tid now, (strTrim a).isEmpty = false →
      g.status = GameStatus.active →
      now - lastActivityAt g < INACTIVITY_TIMEOUT_MS →
      g.players.white = none → g.players.black = none →
      joinGame g a none coin tid now = JoinOutcome.ok
        { g with
            updatedAt := now
            players := g.players.set (if coin then Side.white else Side.black) (some tid)
            playerModels := g.playerModels.set (if coin then Side.white else Side.black)
              (some (strTrim a)) }
        (if coin then Side.white else Side.black) tid) ∧
    (∀ g a coin tid now w, (strTrim a).isEmpty = false →
      g.status = GameStatus.active →
      now - lastActivityAt g < INACTIVITY_TIMEOUT_MS →
      g.players.white = some w → g.players.black = none →
      joinGame g a none coin tid now = JoinOutcome.ok
        { g with
            updatedAt := now
            players := g.players.set Side.black (some tid)
            playerModels := g.playerModels.set Side.black (some (strTrim a)) }
        Side.black tid) ∧
    (∀ g a coin tid now b, (strTrim a).isEmpty = false →
      g.status = GameStatus.active →
      now - lastActivityAt g < INACTIVITY_TIMEOUT_MS →
      g.players.white = none → g.players.black = some b →
      joinGame g a none coin tid now = JoinOutcome.ok
        { g with
            updatedAt := now
            players := g.players.set Side.white (some tid)
            playerModels := g.playerModels.set Side.white (some (strTrim a)) }
        Side.white tid) ∧
    (∀ g a coin tid now w b, (strTrim a).isEmpty = false →
      g.status = GameStatus.active →
      now - lastActivityAt g < INACTIVITY_TIMEOUT_MS →
      g.players.white = some w → g.players.black = some b →
      joinGame g a none coin tid now =
        JoinOutcome.err g "Both seats are already occupied.") := by
  refine ⟨?_, ?_, ?_, ?_, ?_, ?_⟩
  · intro g a s coin tid now ht hactive hfresh hfree
    have hApply : (applyInactivityTimeout g now).1 = g := by
      rw [applyInactivityTimeout_of_fresh g now hfresh]
    simp only [joinGame, ht, Bool.false_eq_true, if_false, hApply, hfree]
    rw [if_neg (fun hc => hc hactive)]
  · intro g a s coin tid now occ ht hactive hfresh hocc
    have hApply : (applyInactivityTimeout g now).1 = g := by
      rw [applyInactivityTimeout_of_fresh g now hfresh]
    simp only [joinGame, ht, Bool.false_eq_true, if_false, hApply, hocc]
    rw [if_neg (fun hc => hc hactive)]
  · intro g a coin tid now ht hactive hfresh hw hb
    have hApply : (applyInactivityTimeout g now).1 = g := by
      rw [applyInactivityTimeout_of_fresh g now hfresh]
    simp only [joinGame, ht, Bool.false_eq_true, if_false, hApply]
    rw [if_neg (fun hc => hc hactive)]
    rw [if_pos ⟨hw, hb⟩]
    cases coin
    · simp only [Bool.false_eq_true, if_false, if_true, SeatMap.get, hb]
    · simp only [Bool.false_eq_true, if_false, if_true, SeatMap.get, hw]
  · intro g a coin tid now w ht hactive hfresh hw hb
    have hApply : (applyInactivityTimeout g now).1 = g := by
      rw [applyInactivityTimeout_of_fresh g now hfresh]
    simp only [joinGame, ht, Bool.false_eq_true, if_false, hApply]
    rw [if_neg (fun hc => hc hactive)]
    rw [if_neg (fun hc => by rw [hw] at hc; exact Option.noConfusion hc.1)]
    rw [if_neg (fun hc => by rw [hw] at hc; exact Option.noConfusion hc)]
    rw [if_pos hb]
    simp only [SeatMap.get, hb]
  · intro g a coin tid now b ht hactive hfresh hw hb
    have hApply : (applyInactivityTimeout g now).1 = g := by
      rw [applyInactivityTimeout_of_fresh g now hfresh]
    simp only [joinGame, ht, Bool.false_eq_true, if_false, hApply]
    rw [if_neg (fun hc => hc hactive)]
    rw [if_neg (fun hc => by rw [hb] at hc; exact Option.noConfusion hc.2)]
    rw [if_pos hw]
    simp only [SeatMap.get, hw]
  · intro g a coin tid now w b ht hactive hfresh hw hb
    have hApply : (applyInactivityTimeout g now).1 = g := by
      rw [applyInactivityTimeout_of_fresh g now hfresh]
    simp only [joinGame, ht, Bool.false_eq_true, if_false, hApply]
    rw [if_neg (fun hc => hc hactive)]
    rw [if_neg (fun hc => by rw [hw] at hc; exact Option.noConfusion hc.1)]
    rw [if_neg (fun hc => by rw [hw] at hc; exact Option.noConfusion hc)]
    rw [if_neg (fun hc => by rw [hb] at hc; exact Option.noConfusion hc)]

/-- Witness for `joinGame_side_assignment_spec`: a free preferred seat is
assigned, an occupied one raises, an empty game assigns the coin side,
a half-empty game assigns the single free side, and a full game raises. -/
theorem joinGame_side_assignment_spec_witness :
    joinGame exOneSeatGame "agent-b" (some Side.black) true "BBBBB" 0 = JoinOutcome.ok
      { exOneSeatGame with
          updatedAt := 0
          players := exOneSeatGame.players.set Side.black (some "BBBBB")
          playerModels := exOneSeatGame.playerModels.set Side.black
            (some (strTrim "agent-b")) } Side.black "BBBBB" ∧
    joinGame exOneSeatGame "agent-b" (some Side.white) true "BBBBB" 0 = JoinOutcome.err
      exOneSeatGame ("white is already occupied by ticket " ++ "AAAAA" ++ ".") ∧
    joinGame exEmptyGame "agent-a" none true "AAAAA" 0 = JoinOutcome.ok
      { exEmptyGame with
          updatedAt := 0
          players := exEmptyGame.players.set (if true then Side.white else Side.black)
            (some "AAAAA")
          playerModels := exEmptyGame.playerModels.set
            (if true then Side.white else Side.black) (some (strTrim "agent-a")) }
      (if true then Side.white else Side.black) "AAAAA" ∧
    joinGame exOneSeatGame "agent-b" none false "BBBBB" 0 = JoinOutcome.ok
      { exOneSeatGame with
          updatedAt := 0
          players := exOneSeatGame.players.set Side.black (some "BBBBB")
          playerModels := exOneSeatGame.playerModels.set Side.black
            (some (strTrim "agent-b")) } Side.black "BBBBB" ∧
    joinGame exActiveGame "agent-c" none true "CCCCC" 0 =
      JoinOutcome.err exActiveGame "Both seats are already occupied." :=
  ⟨joinGame_side_assignment_spec.1 exOneSeatGame "agent-b" Side.black true "BBBBB" 0
      (by decide) rfl (by decide) rfl,
   joinGame_side_assignment_spec.2.1 exOneSeatGame "agent-b" Side.white true "BBBBB" 0
      "AAAAA" (by decide) rfl (by decide) rfl,
   joinGame_side_assignment_spec.2.2.1 exEmptyGame "agent-a" true "AAAAA" 0
      (by decide) rfl (by decide) rfl rfl,
   joinGame_side_assignment_spec.2.2.2.1 exOneSeatGame "agent-b" false "BBBBB" 0
      "AAAAA" (by decide) rfl (by decide) rfl rfl,
   joinGame_side_assignment_spec.2.2.2.2.2 exActiveGame "agent-c" true "CCCCC" 0
      "BBBBB" "AAAAA" (by decide) rfl (by decide) rfl rfl⟩

/-- C8 counterexample: a stale ticket (seat re-assigned to another
ticket) makes `abandonJoinTicketIfUnpaired` return `false`, but the call
is not a no-op — the stale ticket record is deleted from the store. -/
theorem abandon_mismatch_counterexample :
    abandonJoinTicketIfUnpaired ⟨exActiveGame, [exWhiteTicket]⟩ "AAAAA" 0 =
      AbandonOutcome.res exActiveGame [] false ∧
    abandonJoinTicketIfUnpaired ⟨exActiveGame, [exWhiteTicket]⟩ "AAAAA" 0 ≠
      AbandonOutcome.res exActiveGame [exWhiteTicket] false := by
  constructor
  · decide
  · decide

/-- C8 (amended): `abandonJoinTicketIfUnpaired` behaviour.  An unknown
ticket id is a no-op returning `false`; a ticket that no longer matches
the live seat returns `false` with the game unchanged but its stale
ticket record deleted; a matching ticket whose opponent seat is occupied
refuses to vacate, returning `false` with seat and ticket store
unchanged; otherwise the seat occupant and agent identity are cleared,
the ticket record is deleted, and the call returns `true`. -/
theorem abandonJoinTicketIfUnpaired_spec :
    (∀ st t now, (strTrim t).isEmpty = false →
      loadTicket st.tickets t = none →
      abandonJoinTicketIfUnpaired st t now =
        AbandonOutcome.res st.game st.tickets false) ∧
    (∀ st t now tk, (strTrim t).isEmpty = false →
      loadTicket st.tickets t = some tk →
      ((applyInactivityTimeout st.game now).1).players.get tk.side ≠ some tk.ticketId →
      abandonJoinTicketIfUnpaired st t now =
        AbandonOutcome.res ((applyInactivityTimeout st.game now).1)
          (deleteTicket st.tickets tk.ticketId) false) ∧
    (∀ st t now tk occ, (strTrim t).isEmpty = false →
      loadTicket st.tickets t = some tk →
      ((applyInactivityTimeout st.game now).1).players.get tk.side = some tk.ticketId →
      ((applyInactivityTimeout st.game now).1).players.get (oppositeSide tk.side) =
        some occ →
      abandonJoinTicketIfUnpaired st t now =
        AbandonOutcome.res ((applyInactivityTimeout st.game now).1) st.tickets false) ∧
    (∀ st t now tk, (strTrim t).isEmpty = false →
      loadTicket st.tickets t = some tk →
      ((applyInactivityTimeout st.game now).1).players.get tk.side = some tk.ticketId →
      ((applyInactivityTimeout st.game now).1).players.get (oppositeSide tk.side) =
        none →
      abandonJoinTicketIfUnpaired st t now =
        AbandonOutcome.res
          { (applyInactivityTimeout st.game now).1 with
              players := ((applyInactivityTimeout st.game now).1).players.set tk.side none
              playerModels :=
                ((applyInactivityTimeout st.game now).1).playerModels.set tk.side none
              updatedAt := now }
          (deleteTicket st.tickets tk.ticketId) true) := by
  refine ⟨?_, ?_, ?_, ?_⟩
  · intro st t now ht hload
    simp only [abandonJoinTicketIfUnpaired, ht, Bool.false_eq_true, if_false, hload]
  · intro st t now tk ht hload hmis
    simp only [abandonJoinTicketIfUnpaired, ht, Bool.false_eq_true, if_false, hload]
    rw [if_pos hmis]
  · intro st t now tk occ ht hload hmatch hocc
    simp only [abandonJoinTicketIfUnpaired, ht, Bool.false_eq_true, if_false, hload]
    rw [if_neg (fun hc => hc hmatch)]
    simp only [hocc, Option.isSome_some, if_true]
  · intro st t now tk ht hload hmatch hnone
    simp only [abandonJoinTicketIfUnpaired, ht, Bool.false_eq_true, if_false, hload]
    rw [if_neg (fun hc => hc hmatch)]
    simp only [hnone, Option.isSome_none, Bool.false_eq_true, if_false]

/-- Witness for `abandonJoinTicketIfUnpaired_spec`: the four branches at
concrete stores. -/
theorem abandonJoinTicketIfUnpaired_spec_witness :
    abandonJoinTicketIfUnpaired ⟨exActiveGame, []⟩ "AAAAA" 0 =
      AbandonOutcome.res exActiveGame [] false ∧
    abandonJoinTicketIfUnpaired ⟨exActiveGame, [exWhiteTicket]⟩ "AAAAA" 0 =
      AbandonOutcome.res ((applyInactivityTimeout exActiveGame 0).1)
        (deleteTicket [exWhiteTicket] exWhiteTicket.ticketId) false ∧
    abandonJoinTicketIfUnpaired ⟨exActiveGame, [exBlackTicket]⟩ "AAAAA" 0 =
      AbandonOutcome.res ((applyInactivityTimeout exActiveGame 0).1) [exBlackTicket]
        false ∧
    abandonJoinTicketIfUnpaired ⟨exOneSeatGame, [exWhiteTicket]⟩ "AAAAA" 5 =
      AbandonOutcome.res
        { (applyInactivityTimeout exOneSeatGame 5).1 with
            players := ((applyInactivityTimeout exOneSeatGame 5).1).players.set
              exWhiteTicket.side none
            playerModels := ((applyInactivityTimeout exOneSeatGame 5).1).playerModels.set
              exWhiteTicket.side none
            updatedAt := 5 }
        (deleteTicket [exWhiteTicket] exWhiteTicket.ticketId) true :=
  ⟨abandonJoinTicketIfUnpaired_spec.1 ⟨exActiveGame, []⟩ "AAAAA" 0 (by decide) rfl,
   abandonJoinTicketIfUnpaired_spec.2.1 ⟨exActiveGame, [exWhiteTicket]⟩ "AAAAA" 0
     exWhiteTicket (by decide) rfl (by decide),
   abandonJoinTicketIfUnpaired_spec.2.2.1 ⟨exActiveGame, [exBlackTicket]⟩ "AAAAA" 0
     exBlackTicket "BBBBB" (by decide) rfl (by decide) (by decide),
   abandonJoinTicketIfUnpaired_spec.2.2.2 ⟨exOneSeatGame, [exWhiteTicket]⟩ "AAAAA" 5
     exWhiteTicket (by decide) rfl (by decide) (by decide)⟩

end AgentChess
